import Mathlib

/-!
Verification of the `matched_columns` FTS5 auxiliary function
(src/AuxiliaryFunctions/matched_columns.c) against its natural-language
specification.

The shallow embedding models `matched_columns_imp` faithfully:

* The match context supplies `numberOfColumns` (`xColumnCount`) and, for
  each phrase, the finite sequence of column indices yielded by the
  `xPhraseFirstColumn` / `xPhraseNextColumn` iterator before it signals
  exhaustion with a negative sentinel.  The C loop stops at the first
  negative value, so each phrase is a `List Nat`.
* `sqlite3_malloc` returns uninitialized memory (and NULL when the request
  is zero bytes or the allocation fails), so the model is parameterised by
  the contents the allocator happens to return: `initBuf` is the character
  sequence `strlen` observes in the fresh output buffer, `initSeen` the
  boolean contents of the fresh `columnSet` array.
* The C source bounds `strncat` by `sizeof(matchedColumns)-strlen(...)-1`
  where `matchedColumns` is a `char *`, so `sizeof` is the pointer size
  (8 on the 64-bit platform), and the subtraction is performed in `size_t`
  arithmetic, i.e. modulo 2^64.
* Dereferencing a NULL buffer (the code never checks its `sqlite3_malloc`
  results) and accessing `columnSet` outside its `numberOfColumns` bounds
  are undefined behaviour in C; the model records them in the `nullDeref`
  and `oob` flags while continuing with a total semantics.
* `sqlite3_result_text` with a NULL pointer produces the SQL NULL value,
  modelled by `AggResult.sqlNull`; `sqlite3_result_error` produces
  `AggResult.error`.
-/

/-- `sizeof(char*)` on the 64-bit platform: the value the source's
`sizeof(matchedColumns)` actually evaluates to, since `matchedColumns` is a
pointer. -/
def sizeofCharPtr : Nat := 8

/-- 2^64, the modulus of `size_t` arithmetic on the 64-bit platform. -/
def sizetModulus : Nat := 18446744073709551616

/-- The match context of one invocation: the FTS5 table's column count and,
for each phrase of the query, the column indices its iterator yields (in
yield order) before signalling exhaustion. -/
structure MatchContext where
  numberOfColumns : Nat
  phrases : List (List Nat)
deriving DecidableEq

/-- The allocator behaviour observed by one invocation: the garbage contents
`sqlite3_malloc` leaves in the two uninitialized buffers, and whether either
allocation fails (returns NULL). `initBuf` is the character sequence up to
the first NUL byte in the fresh output buffer, i.e. what `strlen` sees. -/
structure Mem where
  initBuf : List Char
  initSeen : Nat → Bool
  bufAllocFails : Bool
  seenAllocFails : Bool

/-- Zero-filled allocator behaviour: both buffers come back zeroed (empty
string, all-false flags) and no allocation fails. The C source relies on
this behaviour without establishing it. -/
def cleanMem : Mem :=
  { initBuf := [], initSeen := fun _ => false,
    bufAllocFails := false, seenAllocFails := false }

/-- The value handed to `sqlite3_context`: an error message via
`sqlite3_result_error`, the SQL NULL produced by `sqlite3_result_text`
on a NULL pointer, or a text value. -/
inductive AggResult where
  | error (msg : String)
  | sqlNull
  | text (s : String)
deriving DecidableEq

/-- Observable outcome of one invocation: the result value plus whether the
run dereferenced a NULL buffer pointer or accessed `columnSet` out of
bounds (both undefined behaviour in the C source). -/
structure AggOutcome where
  result : AggResult
  oob : Bool
  nullDeref : Bool
deriving DecidableEq

/-- Working state of the aggregation loops: the `matchedColumns` buffer
(`none` = NULL pointer, `some b` = buffer whose string contents are `b`),
the `columnSet` buffer, and the undefined-behaviour flags. -/
structure LoopState where
  buf : Option (List Char)
  seen : Option (Nat → Bool)
  oob : Bool
  nullDeref : Bool

/-- Marking `columnSet[c] = true`. -/
def setTrue (seen : Nat → Bool) (c : Nat) : Nat → Bool :=
  fun i => if i = c then true else seen i

/-- The append step of the source: `sqlite3_mprintf` renders the column
index in decimal, prefixed by a comma when `strlen(matchedColumns) > 0`,
and `strncat` appends at most `sizeof(matchedColumns)-strlen(...)-1`
characters of it, the bound computed in `size_t` arithmetic with `sizeof`
applied to the `char *` pointer. -/
def appendIndex (buf : List Char) (c : Nat) : List Char :=
  buf ++ (String.toList
      (if buf.length > 0 then String.append "," (Nat.repr c) else Nat.repr c)).take
    ((sizetModulus + sizeofCharPtr - 1 - buf.length) % sizetModulus)

/-- One yielded column index: read `columnSet[columnIndex]` (a NULL
dereference if the allocation failed, an out-of-bounds access if the index
is not below `numberOfColumns`); if false, mark it true and append the
index to the output buffer (a NULL dereference via `strlen` if that
allocation failed). -/
def processColumn (numberOfColumns : Nat) (st : LoopState) (columnIndex : Nat) :
    LoopState :=
  match st.seen with
  | none => { st with nullDeref := true }
  | some seen =>
    let oob2 := st.oob || decide (numberOfColumns ≤ columnIndex)
    if seen columnIndex = false then
      match st.buf with
      | none =>
        { buf := none, seen := some (setTrue seen columnIndex),
          oob := oob2, nullDeref := true }
      | some buf =>
        { buf := some (appendIndex buf columnIndex),
          seen := some (setTrue seen columnIndex),
          oob := oob2, nullDeref := st.nullDeref }
    else
      { st with oob := oob2 }

/-- The inner `for` loop: fold `processColumn` over the column indices the
phrase's iterator yields. -/
def runPhrase (numberOfColumns : Nat) (st : LoopState) (yields : List Nat) :
    LoopState :=
  yields.foldl (processColumn numberOfColumns) st

/-- The body of `matched_columns_imp` after the arity check: allocate the
two buffers (`sqlite3_malloc` returns NULL for a zero-byte request or on
failure, and does not clear the memory), run the phrase loops, and hand the
buffer to `sqlite3_result_text` (SQL NULL when the pointer is NULL). -/
def aggregateRun (ctx : MatchContext) (mem : Mem) : AggOutcome :=
  let numberOfColumns := ctx.numberOfColumns
  let matchedColumns : Option (List Char) :=
    if mem.bufAllocFails || numberOfColumns == 0 then none else some mem.initBuf
  let columnSet : Option (Nat → Bool) :=
    if mem.seenAllocFails || numberOfColumns == 0 then none else some mem.initSeen
  let stF := ctx.phrases.foldl (runPhrase numberOfColumns)
    { buf := matchedColumns, seen := columnSet, oob := false, nullDeref := false }
  { result :=
      (match stF.buf with
       | none => AggResult.sqlNull
       | some b => AggResult.text (String.mk b)),
    oob := stF.oob, nullDeref := stF.nullDeref }

/-- The registered auxiliary function `matched_columns_imp`: reject a
nonzero argument count through `sqlite3_result_error`, otherwise aggregate. -/
def matched_columns_imp (nVal : Nat) (ctx : MatchContext) (mem : Mem) :
    AggOutcome :=
  if nVal ≠ 0 then
    { result := AggResult.error "Wrong number of arguments.",
      oob := false, nullDeref := false }
  else
    aggregateRun ctx mem

/-- Total number of column indices yielded by the per-phrase iterators of a
match context: the iterator steps the aggregation loops perform. -/
def iteratorSteps (ctx : MatchContext) : Nat :=
  (ctx.phrases.map List.length).sum

/-- Modelled from the spec: the first-seen deduplication of the traversal
that visits phrases in ascending order and, within a phrase, the iterator's
yield order (spec section 3, Output; section 8, Order law). -/
def specFirstSeenOrder (phrases : List (List Nat)) : List Nat :=
  phrases.flatten.foldl (fun acc c => if acc.contains c then acc else acc ++ [c]) []

/-- Modelled from the spec: rendering an index sequence as the
comma-separated decimal list (spec section 4.1, steps 3-4). -/
def specRenderIndices (l : List Nat) : String :=
  String.intercalate "," (l.map Nat.repr)

/-- Invariant: whenever the output buffer pointer is non-NULL, its string
contents fit in `sizeof(char*) - 1` characters. -/
def BufWithin (st : LoopState) : Prop :=
  ∀ b, st.buf = some b → b.length ≤ sizeofCharPtr - 1

theorem appendIndex_length_le (buf : List Char) (c : Nat)
    (h : buf.length ≤ sizeofCharPtr - 1) :
    (appendIndex buf c).length ≤ sizeofCharPtr - 1 := by
  have hn : (sizetModulus + sizeofCharPtr - 1 - buf.length) % sizetModulus
      = sizeofCharPtr - 1 - buf.length := by
    unfold sizetModulus sizeofCharPtr at *
    omega
  unfold appendIndex
  rw [hn]
  simp only [List.length_append, List.length_take]
  unfold sizeofCharPtr at *
  omega

theorem processColumn_buf_eq (n : Nat) (st : LoopState) (c : Nat) :
    (processColumn n st c).buf = st.buf ∨
    ∃ buf, st.buf = some buf ∧ (processColumn n st c).buf = some (appendIndex buf c) := by
  unfold processColumn
  cases hs : st.seen with
  | none => left; rfl
  | some seen =>
    by_cases hc : seen c = false
    · cases hb : st.buf with
      | none => left; simp [hc, hb]
      | some buf => right; exact ⟨buf, rfl, by simp [hc, hb]⟩
    · left; simp [hc]

theorem processColumn_bufWithin (n : Nat) (st : LoopState) (c : Nat)
    (h : BufWithin st) : BufWithin (processColumn n st c) := by
  intro b hb
  rcases processColumn_buf_eq n st c with heq | ⟨buf, hbuf, heq⟩
  · exact h b (heq ▸ hb)
  · rw [heq] at hb
    cases hb
    exact appendIndex_length_le buf c (h buf hbuf)

theorem foldl_preserve {α β : Type} (P : α → Prop) (f : α → β → α)
    (hf : ∀ a b, P a → P (f a b)) :
    ∀ (l : List β) (a : α), P a → P (l.foldl f a) := by
  intro l
  induction l with
  | nil => intro a ha; exact ha
  | cons x xs ih => intro a ha; exact ih (f a x) (hf a x ha)

theorem runPhrase_bufWithin (n : Nat) (st : LoopState) (yields : List Nat)
    (h : BufWithin st) : BufWithin (runPhrase n st yields) :=
  foldl_preserve BufWithin (processColumn n) (processColumn_bufWithin n) yields st h

theorem nodup_bounded_length (n : Nat) (l : List Nat) (hnd : l.Nodup)
    (hlt : ∀ c ∈ l, c < n) : l.length ≤ n := by
  have h1 : l.toFinset.card = l.length := List.toFinset_card_of_nodup hnd
  have h2 : l.toFinset ⊆ Finset.range n := by
    intro x hx
    rw [List.mem_toFinset] at hx
    exact Finset.mem_range.mpr (hlt x hx)
  calc l.length = l.toFinset.card := h1.symm
    _ ≤ (Finset.range n).card := Finset.card_le_card h2
    _ = n := Finset.card_range n

theorem sum_lengths_bounded (n : Nat) :
    ∀ phs : List (List Nat),
      (∀ ph ∈ phs, ph.Nodup ∧ ∀ c ∈ ph, c < n) →
      (phs.map List.length).sum ≤ n * phs.length := by
  intro phs
  induction phs with
  | nil => intro _; simp
  | cons p ps ih =>
    intro h
    have hp := h p (List.mem_cons_self p ps)
    have hps := ih fun ph hph => h ph (List.mem_cons_of_mem p hph)
    have h1 : p.length ≤ n := nodup_bounded_length n p hp.1 hp.2
    simp only [List.map_cons, List.sum_cons, List.length_cons, Nat.mul_succ]
    omega

/-- C6: if the function is invoked with a nonzero argument count, the error
"Wrong number of arguments." is reported through the result sink,
aggregation never starts (the outcome is independent of the match context
and of the allocator), and no text result is produced. -/
theorem arity_error_rejected (nVal : Nat) (ctx : MatchContext) (mem : Mem)
    (h : nVal ≠ 0) :
    matched_columns_imp nVal ctx mem =
      { result := AggResult.error "Wrong number of arguments.",
        oob := false, nullDeref := false } := by
  unfold matched_columns_imp
  rw [if_pos h]

/-- Witness for C6 at the concrete argument count 1. -/
theorem arity_error_rejected_witness :
    matched_columns_imp 1 ⟨0, []⟩ cleanMem =
      { result := AggResult.error "Wrong number of arguments.",
        oob := false, nullDeref := false } :=
  arity_error_rejected 1 ⟨0, []⟩ cleanMem (by decide)

/-- C9: when every phrase iterator is finite and yields each (in-range)
column at most once before signalling exhaustion, the aggregation loops
perform at most `numberOfColumns * numberOfPhrases` iterator steps; the
model is structurally recursive over these finite sequences, so the
operation always terminates. -/
theorem iteratorSteps_bounded (ctx : MatchContext)
    (h : ∀ ph ∈ ctx.phrases, ph.Nodup ∧ ∀ c ∈ ph, c < ctx.numberOfColumns) :
    iteratorSteps ctx ≤ ctx.numberOfColumns * ctx.phrases.length := by
  unfold iteratorSteps
  exact sum_lengths_bounded ctx.numberOfColumns ctx.phrases h

/-- Witness for C9 at the spec's scenario 1 context. -/
theorem iteratorSteps_bounded_witness :
    iteratorSteps ⟨3, [[0, 1], [1, 2]]⟩ ≤ 3 * 2 :=
  iteratorSteps_bounded ⟨3, [[0, 1], [1, 2]]⟩ (by decide)

/-- C10: because the source bounds `strncat` by
`sizeof(matchedColumns) - strlen(matchedColumns) - 1` with `matchedColumns`
a `char *`, whenever the fresh output buffer starts within
`sizeof(char*) - 1 = 7` characters (in particular when it starts empty),
every text result has length at most 7, a constant independent of
`numberOfColumns` and `numberOfPhrases`. -/
theorem output_bounded_by_pointer_size (nVal : Nat) (ctx : MatchContext)
    (mem : Mem) (hmem : mem.initBuf.length ≤ sizeofCharPtr - 1) (s : String)
    (hres : (matched_columns_imp nVal ctx mem).result = AggResult.text s) :
    s.length ≤ sizeofCharPtr - 1 := by
  unfold matched_columns_imp at hres
  by_cases hv : nVal ≠ 0
  · rw [if_pos hv] at hres
    exact absurd hres (by simp)
  · rw [if_neg hv] at hres
    unfold aggregateRun at hres
    simp only at hres
    have hst0 : BufWithin
        { buf := if mem.bufAllocFails || ctx.numberOfColumns == 0 then none
            else some mem.initBuf,
          seen := if mem.seenAllocFails || ctx.numberOfColumns == 0 then none
            else some mem.initSeen,
          oob := false, nullDeref := false } := by
      intro b hb
      by_cases hz : mem.bufAllocFails || ctx.numberOfColumns == 0
      · simp [hz] at hb
      · simp [hz] at hb
        exact hb ▸ hmem
    have hstF := foldl_preserve BufWithin (runPhrase ctx.numberOfColumns)
      (runPhrase_bufWithin ctx.numberOfColumns) ctx.phrases _ hst0
    cases hb : (ctx.phrases.foldl (runPhrase ctx.numberOfColumns)
        { buf := if mem.bufAllocFails || ctx.numberOfColumns == 0 then none
            else some mem.initBuf,
          seen := if mem.seenAllocFails || ctx.numberOfColumns == 0 then none
            else some mem.initSeen,
          oob := false, nullDeref := false }).buf with
    | none =>
      rw [hb] at hres
      exact absurd hres (by simp)
    | some b =>
      rw [hb] at hres
      simp only [AggResult.text.injEq] at hres
      have hlen := hstF b hb
      rw [← hres]
      exact hlen

/-- Witness for C10 at five single-digit columns: the produced text is
"0,1,2,3" and its length is within `sizeof(char*) - 1`. -/
theorem output_bounded_by_pointer_size_witness :
    ("0,1,2,3" : String).length ≤ sizeofCharPtr - 1 :=
  output_bounded_by_pointer_size 0 ⟨5, [[0, 1, 2, 3, 4]]⟩ cleanMem (by decide)
    "0,1,2,3" (by decide)

set_option maxRecDepth 4000 in
/-- C1: evaluation at the spec's 150-column scenario with a zero-filled
allocator. The output is "0,1,2,3" (7 characters), not the 150-entry list:
the `strncat` bound `sizeof(matchedColumns) - strlen - 1` uses the pointer
size 8, so the text stops growing at 7 characters and indices 4..149 are
silently dropped. -/
theorem truncation_at_150_columns :
    (matched_columns_imp 0 ⟨150, [List.range 150]⟩ cleanMem).result =
      AggResult.text "0,1,2,3" := by
  decide

/-- C2: the source never initializes `columnSet` after `sqlite3_malloc`.
With a zero-filled allocator the same context yields "0,1"; with an
allocator whose fresh memory reads as true, every column is skipped and the
output is empty, so the outcome depends on the allocator's garbage. -/
theorem seen_set_not_initialized :
    (matched_columns_imp 0 ⟨3, [[0, 1]]⟩ cleanMem).result =
      AggResult.text "0,1" ∧
    (matched_columns_imp 0 ⟨3, [[0, 1]]⟩
        { initBuf := [], initSeen := fun _ => true,
          bufAllocFails := false, seenAllocFails := false }).result =
      AggResult.text "" := by
  constructor
  · decide
  · decide

/-- C3: with 13 columns and one phrase yielding 0, 2, 4, 12, the output is
"0,2,4,1": the yielded column 12 is absent (its append was cut after one
character by the `sizeof(char*)`-based `strncat` bound), and the index 1,
never yielded, appears in the text. -/
theorem yielded_column_dropped_and_garbled :
    (matched_columns_imp 0 ⟨13, [[0, 2, 4, 12]]⟩ cleanMem).result =
      AggResult.text "0,2,4,1" := by
  decide

/-- C4: with zero columns `sqlite3_malloc(0)` returns NULL and
`sqlite3_result_text` on NULL produces SQL NULL, not the empty string; and
with no phrases the uninitialized output buffer is returned as-is, so a
non-zeroing allocator makes the result arbitrary garbage instead of "". -/
theorem empty_cases_not_empty_string :
    (matched_columns_imp 0 ⟨0, [[]]⟩ cleanMem).result = AggResult.sqlNull ∧
    (matched_columns_imp 0 ⟨2, []⟩
        { initBuf := String.toList "XY", initSeen := fun _ => false,
          bufAllocFails := false, seenAllocFails := false }).result =
      AggResult.text "XY" := by
  constructor
  · decide
  · decide

/-- C5: with 10 columns and one phrase yielding 9, 8, 7, 6, 5, the code
produces "9,8,7,6" while the spec's first-seen rendering of the same
traversal is "9,8,7,6,5": the output does not equal first-seen order once
the 7-character `strncat` ceiling is reached. -/
theorem output_not_first_seen_order :
    (matched_columns_imp 0 ⟨10, [[9, 8, 7, 6, 5]]⟩ cleanMem).result =
      AggResult.text "9,8,7,6" ∧
    specRenderIndices (specFirstSeenOrder [[9, 8, 7, 6, 5]]) = "9,8,7,6,5" ∧
    AggResult.text "9,8,7,6" ≠ AggResult.text "9,8,7,6,5" := by
  refine ⟨by decide, by decide, by decide⟩

/-- C7: the source never checks its `sqlite3_malloc` results. When the
output-buffer allocation fails, no error is reported: with no phrases the
result is silently SQL NULL, and with any yielded column the NULL buffer is
dereferenced (`strlen(NULL)`, a crash in C), never a reported error. -/
theorem allocation_failure_not_reported :
    (matched_columns_imp 0 ⟨4, []⟩
        { initBuf := [], initSeen := fun _ => false,
          bufAllocFails := true, seenAllocFails := false }) =
      { result := AggResult.sqlNull, oob := false, nullDeref := false } ∧
    (matched_columns_imp 0 ⟨4, [[1]]⟩
        { initBuf := [], initSeen := fun _ => false,
          bufAllocFails := true, seenAllocFails := false }).nullDeref = true := by
  constructor
  · decide
  · decide

/-- C8: with one column and a phrase iterator yielding the out-of-range
index 5, the run reads and writes `columnSet[5]` outside the 1-entry
allocation (the `oob` flag) and still returns the text "5" instead of
treating the protocol violation as an internal error. -/
theorem out_of_range_index_not_checked :
    matched_columns_imp 0 ⟨1, [[5]]⟩ cleanMem =
      { result := AggResult.text "5", oob := true, nullDeref := false } := by
  decide
